import Mathlib

/-!
Verification of the Master Scoring Model (`calculate_master_score` in
`src/app.py`) of SimpleStockRank.

The engine is a pure function from a metrics mapping, a weights mapping and a
target return to a score report.  We embed it shallowly: JSON-style mappings
become association lists `List (String × ℚ)` looked up with the same
key/default pairs the Python code uses (`dict.get`), Python numbers become
rationals, Python `round(x, 1)` becomes exact half-to-even rounding to one
decimal, and Python `int(x)` becomes truncation toward zero.
-/

namespace SimpleStockRank

/-- `d.get k default` on a Python dict, modelled on an association list:
the value of the first pair whose key is `k`, else the default. -/
def dictGetD : List (String × ℚ) → String → ℚ → ℚ
  | [], _, d => d
  | p :: l, k, d => if p.1 = k then p.2 else dictGetD l k d

/-- The eight recognized metric fields, after defaulting (dict `m` built at
`src/app.py:117-126`). -/
structure Metrics where
  industry_growth_3yr : ℚ
  net_profit_growth_5yr : ℚ
  pe_ratio : ℚ
  sector_pe : ℚ
  dividend_yield : ℚ
  dividend_years_consecutive : ℚ
  company_growth_rate : ℚ
  beta : ℚ
  deriving DecidableEq

/-- Defaulting of the metrics mapping, `src/app.py:117-126`: every absent key
defaults to 0, except `beta` which defaults to 1.0. -/
def extractMetrics (metrics : List (String × ℚ)) : Metrics where
  industry_growth_3yr := dictGetD metrics "industry_growth_3yr" 0
  net_profit_growth_5yr := dictGetD metrics "net_profit_growth_5yr" 0
  pe_ratio := dictGetD metrics "pe_ratio" 0
  sector_pe := dictGetD metrics "sector_pe" 0
  dividend_yield := dictGetD metrics "dividend_yield" 0
  dividend_years_consecutive := dictGetD metrics "dividend_years_consecutive" 0
  company_growth_rate := dictGetD metrics "company_growth_rate" 0
  beta := dictGetD metrics "beta" 1.0

/-- The five effective weights (lookups at `src/app.py:192-196`). -/
structure WeightVals where
  w_ind : ℚ
  w_prof : ℚ
  w_mos : ℚ
  w_yield : ℚ
  w_comp : ℚ
  deriving DecidableEq

/-- Defaulting of the weights mapping, `src/app.py:192-196`. -/
def extractWeights (weights : List (String × ℚ)) : WeightVals where
  w_ind := dictGetD weights "industry" 15
  w_prof := dictGetD weights "profit" 25
  w_mos := dictGetD weights "mos" 25
  w_yield := dictGetD weights "yield_val" 20
  w_comp := dictGetD weights "competition" 15

/-- Industry growth sub-score, `src/app.py:131-135`. -/
def industry_subscore (ind_growth : ℚ) : ℚ :=
  if ind_growth ≥ 20 then 100
  else if ind_growth ≥ 10 then 80
  else if ind_growth ≥ 0 then 60
  else 0

/-- Net profit growth sub-score, `src/app.py:138-143`. -/
def profit_subscore (prof_growth : ℚ) : ℚ :=
  if prof_growth ≥ 20 then 100
  else if prof_growth ≥ 10 then 80
  else if prof_growth ≥ 5 then 60
  else if prof_growth ≥ 0 then 40
  else 0

/-- Margin-of-safety sub-score, `src/app.py:148-161`: a relative-PE tier when
sector PE is positive, otherwise an absolute-PE fallback. -/
def mos_subscore (stock_pe sect_pe : ℚ) : ℚ :=
  if sect_pe > 0 then
    let mos_pct := (sect_pe - stock_pe) / sect_pe
    if mos_pct > 0.20 then 100
    else if mos_pct ≥ 0.10 then 80
    else if mos_pct ≥ -0.10 then 50
    else 0
  else
    if stock_pe > 0 ∧ stock_pe < 20 then 50
    else 0

/-- Dividend yield sub-score, `src/app.py:165-174`: hard override to 0 when
consecutive dividend years < 5. -/
def yield_subscore (div_yield div_years : ℚ) : ℚ :=
  if div_years < 5 then 0
  else if div_yield ≥ 8 then 100
  else if div_yield ≥ 5 then 80
  else if div_yield ≥ 3 then 60
  else 30

/-- Competitiveness sub-score, `src/app.py:178-188`. -/
def competition_subscore (comp_growth ind_growth : ℚ) : ℚ :=
  let diff := comp_growth - ind_growth
  if diff ≥ 15 then 100
  else if diff ≥ 5 then 80
  else if diff ≥ -5 then 50
  else 20

/-- The `raw_scores` dict of `src/app.py` (keys `industry`, `profit`, `mos`,
`yield`, `competition`; the `yield` entry is named `yield_s` here). -/
structure RawScores where
  industry : ℚ
  profit : ℚ
  mos : ℚ
  yield_s : ℚ
  competition : ℚ
  deriving DecidableEq

/-- All five raw sub-scores of one metrics record. -/
def rawScoresOf (m : Metrics) : RawScores where
  industry := industry_subscore m.industry_growth_3yr
  profit := profit_subscore m.net_profit_growth_5yr
  mos := mos_subscore m.pe_ratio m.sector_pe
  yield_s := yield_subscore m.dividend_yield m.dividend_years_consecutive
  competition := competition_subscore m.company_growth_rate m.industry_growth_3yr

/-- Step A of `src/app.py:198-204`: the weighted sum divided by 100. -/
def base_score_calc (rs : RawScores) (w : WeightVals) : ℚ :=
  (rs.industry * w.w_ind + rs.profit * w.w_prof + rs.mos * w.w_mos +
    rs.yield_s * w.w_yield + rs.competition * w.w_comp) / 100

/-- Step B of `src/app.py:206-220`: risk multiplier from the target-return
band and beta. -/
def risk_multiplier (target_return beta : ℚ) : ℚ :=
  if target_return < 10 then
    if beta < 0.8 then 1.0
    else if beta ≤ 1.2 then 0.9
    else 0.5
  else if target_return ≥ 15 then
    if 1.2 ≤ beta ∧ beta ≤ 2.5 then 1.0
    else if 0.9 ≤ beta ∧ beta < 1.2 then 0.9
    else 0.6
  else
    if 0.7 ≤ beta ∧ beta ≤ 1.5 then 1.0
    else 0.8

/-- Python's `round` ties-to-even rule, for a rational to an integer. -/
def roundHalfEven (q : ℚ) : ℤ :=
  let n := ⌊q⌋
  let r := q - (n : ℚ)
  if r < 1/2 then n
  else if r > 1/2 then n + 1
  else if n % 2 = 0 then n
  else n + 1

/-- Python's `round(x, 1)`: round to one decimal place. -/
def pyRound1 (q : ℚ) : ℚ := (roundHalfEven (q * 10) : ℚ) / 10

/-- Python's `int(x)` on a number: truncation toward zero. -/
def int_trunc (q : ℚ) : ℤ := if q < 0 then ⌈q⌉ else ⌊q⌋

/-- Step C of `src/app.py:225-227`: grade from the (unrounded, untruncated)
final score. -/
def grade_of (final_score : ℚ) : String :=
  if final_score ≥ 80 then "A"
  else if final_score ≥ 60 then "B"
  else "C"

/-- The report returned at `src/app.py:229-235`. -/
structure ScoreReport where
  baseScore : ℚ
  finalScore : ℤ
  grade : String
  riskMult : ℚ
  rawScores : RawScores
  deriving DecidableEq

/-- `calculate_master_score` of `src/app.py:104-235`. -/
def calculate_master_score (metrics weights : List (String × ℚ))
    (target_return : ℚ) : ScoreReport :=
  let m := extractMetrics metrics
  let rs := rawScoresOf m
  let w := extractWeights weights
  let base_score := base_score_calc rs w
  let risk_mult := risk_multiplier target_return m.beta
  let final_score := base_score * risk_mult
  { baseScore := pyRound1 base_score
    finalScore := int_trunc final_score
    grade := grade_of final_score
    riskMult := risk_mult
    rawScores := rs }

/-! ### A division-checked variant

Python raises `ZeroDivisionError` on `x / 0`.  To state that the engine's
single division (`src/app.py:152`) is unreachable with a zero divisor, we
repeat the computation with division returning `none` on a zero divisor and
prove the checked run always succeeds with the same report. -/

/-- Division that fails (like Python's `/`) when the divisor is zero. -/
def safeDiv (a b : ℚ) : Option ℚ :=
  if b = 0 then none else some (a / b)

/-- `mos_subscore` with the division checked. -/
def mos_subscore_checked (stock_pe sect_pe : ℚ) : Option ℚ :=
  if sect_pe > 0 then
    match safeDiv (sect_pe - stock_pe) sect_pe with
    | none => none
    | some mos_pct =>
      some (if mos_pct > 0.20 then 100
        else if mos_pct ≥ 0.10 then 80
        else if mos_pct ≥ -0.10 then 50
        else 0)
  else
    some (if stock_pe > 0 ∧ stock_pe < 20 then 50 else 0)

/-- `calculate_master_score` with the division checked: `none` would mean a
reachable `ZeroDivisionError`. -/
def calculate_master_score_checked (metrics weights : List (String × ℚ))
    (target_return : ℚ) : Option ScoreReport :=
  let m := extractMetrics metrics
  match mos_subscore_checked m.pe_ratio m.sector_pe with
  | none => none
  | some mos =>
    let rs : RawScores :=
      { industry := industry_subscore m.industry_growth_3yr
        profit := profit_subscore m.net_profit_growth_5yr
        mos := mos
        yield_s := yield_subscore m.dividend_yield m.dividend_years_consecutive
        competition := competition_subscore m.company_growth_rate m.industry_growth_3yr }
    let w := extractWeights weights
    let base_score := base_score_calc rs w
    let risk_mult := risk_multiplier target_return m.beta
    let final_score := base_score * risk_mult
    some
      { baseScore := pyRound1 base_score
        finalScore := int_trunc final_score
        grade := grade_of final_score
        riskMult := risk_mult
        rawScores := rs }

/-! ### Predicates and concrete inputs used by the claims -/

/-- A weights mapping whose values are all integers, as §3 of the spec
requires of a `WeightSet` ("each an integer weight"). -/
def IntegerWeights (weights : List (String × ℚ)) : Prop :=
  ∀ p ∈ weights, ∃ n : ℤ, p.2 = (n : ℚ)

/-- Scenario 1 metrics from §8 of the spec. -/
def metricsS1 : List (String × ℚ) :=
  [("industry_growth_3yr", 25), ("net_profit_growth_5yr", 22), ("pe_ratio", 10),
   ("sector_pe", 15), ("dividend_yield", 9), ("dividend_years_consecutive", 6),
   ("company_growth_rate", 30), ("beta", 1.0)]

/-- Scenario 1 weights from §8 of the spec (the default weights). -/
def weightsS1 : List (String × ℚ) :=
  [("industry", 15), ("profit", 25), ("mos", 25), ("yield_val", 20),
   ("competition", 15)]

/-- A malformed weights mapping with a negative weight: it drives the base
score below zero, where truncation toward zero and floor disagree. -/
def weightsNegative : List (String × ℚ) :=
  [("industry", -1), ("profit", 0), ("mos", 0), ("yield_val", 0),
   ("competition", 0)]

/-! ### Helper lemmas -/

lemma report_riskMult (m w : List (String × ℚ)) (t : ℚ) :
    (calculate_master_score m w t).riskMult =
      risk_multiplier t (extractMetrics m).beta := rfl

lemma report_rawScores (m w : List (String × ℚ)) (t : ℚ) :
    (calculate_master_score m w t).rawScores = rawScoresOf (extractMetrics m) := rfl

lemma report_baseScore (m w : List (String × ℚ)) (t : ℚ) :
    (calculate_master_score m w t).baseScore =
      pyRound1 (base_score_calc (rawScoresOf (extractMetrics m)) (extractWeights w)) :=
  rfl

lemma report_finalScore (m w : List (String × ℚ)) (t : ℚ) :
    (calculate_master_score m w t).finalScore =
      int_trunc (base_score_calc (rawScoresOf (extractMetrics m)) (extractWeights w) *
        risk_multiplier t (extractMetrics m).beta) := rfl

lemma report_grade (m w : List (String × ℚ)) (t : ℚ) :
    (calculate_master_score m w t).grade =
      grade_of (base_score_calc (rawScoresOf (extractMetrics m)) (extractWeights w) *
        risk_multiplier t (extractMetrics m).beta) := rfl

lemma roundHalfEven_intCast (n : ℤ) : roundHalfEven (n : ℚ) = n := by
  simp [roundHalfEven]

lemma pyRound1_int_div_ten (k : ℤ) : pyRound1 ((k : ℚ) / 10) = (k : ℚ) / 10 := by
  unfold pyRound1
  rw [div_mul_cancel₀ _ (by norm_num : (10:ℚ) ≠ 0), roundHalfEven_intCast]

lemma int_trunc_of_nonneg {q : ℚ} (h : 0 ≤ q) : int_trunc q = ⌊q⌋ :=
  if_neg (not_lt.2 h)

lemma le_int_trunc_iff {c : ℤ} (hc : 0 < c) (q : ℚ) :
    c ≤ int_trunc q ↔ (c : ℚ) ≤ q := by
  unfold int_trunc
  split
  · next hq =>
    constructor
    · intro h
      exact absurd (h.trans (Int.ceil_le.2 (by exact_mod_cast hq.le))) (not_le.2 hc)
    · intro h
      exact absurd (h.trans_lt hq) (not_lt.2 (by exact_mod_cast hc.le))
  · exact Int.le_floor

lemma industry_subscore_mem (g : ℚ) :
    industry_subscore g = 0 ∨ industry_subscore g = 60 ∨
      industry_subscore g = 80 ∨ industry_subscore g = 100 := by
  unfold industry_subscore
  split_ifs <;> simp

lemma profit_subscore_mem (g : ℚ) :
    profit_subscore g = 0 ∨ profit_subscore g = 40 ∨ profit_subscore g = 60 ∨
      profit_subscore g = 80 ∨ profit_subscore g = 100 := by
  unfold profit_subscore
  split_ifs <;> simp

lemma mos_subscore_mem (p s : ℚ) :
    mos_subscore p s = 0 ∨ mos_subscore p s = 50 ∨
      mos_subscore p s = 80 ∨ mos_subscore p s = 100 := by
  unfold mos_subscore
  dsimp only
  split_ifs <;> simp

lemma yield_subscore_mem (y n : ℚ) :
    yield_subscore y n = 0 ∨ yield_subscore y n = 30 ∨ yield_subscore y n = 60 ∨
      yield_subscore y n = 80 ∨ yield_subscore y n = 100 := by
  unfold yield_subscore
  split_ifs <;> simp

lemma competition_subscore_mem (c g : ℚ) :
    competition_subscore c g = 20 ∨ competition_subscore c g = 50 ∨
      competition_subscore c g = 80 ∨ competition_subscore c g = 100 := by
  unfold competition_subscore
  dsimp only
  split_ifs <;> simp

lemma risk_multiplier_mem (t b : ℚ) :
    risk_multiplier t b = 0.5 ∨ risk_multiplier t b = 0.6 ∨
      risk_multiplier t b = 0.8 ∨ risk_multiplier t b = 0.9 ∨
      risk_multiplier t b = 1.0 := by
  unfold risk_multiplier
  split_ifs <;> simp

lemma risk_multiplier_pos (t b : ℚ) : 0 < risk_multiplier t b := by
  rcases risk_multiplier_mem t b with h | h | h | h | h <;> rw [h] <;> norm_num

lemma risk_multiplier_le_one (t b : ℚ) : risk_multiplier t b ≤ 1 := by
  rcases risk_multiplier_mem t b with h | h | h | h | h <;> rw [h] <;> norm_num

/-- Any value drawn from the tier constants is ten times an integer. -/
lemma ten_mul_of_tier {q : ℚ}
    (h : q = 0 ∨ q = 20 ∨ q = 30 ∨ q = 40 ∨ q = 50 ∨ q = 60 ∨ q = 80 ∨ q = 100) :
    ∃ a : ℤ, q = 10 * (a : ℚ) := by
  rcases h with h | h | h | h | h | h | h | h
  exacts [⟨0, by rw [h]; norm_num⟩, ⟨2, by rw [h]; norm_num⟩,
    ⟨3, by rw [h]; norm_num⟩, ⟨4, by rw [h]; norm_num⟩,
    ⟨5, by rw [h]; norm_num⟩, ⟨6, by rw [h]; norm_num⟩,
    ⟨8, by rw [h]; norm_num⟩, ⟨10, by rw [h]; norm_num⟩]

lemma dictGetD_integer {w : List (String × ℚ)} (hw : IntegerWeights w)
    (k : String) (d : ℤ) : ∃ n : ℤ, dictGetD w k (d : ℚ) = (n : ℚ) := by
  induction w with
  | nil => exact ⟨d, rfl⟩
  | cons p l ih =>
    rw [dictGetD]
    split
    · exact hw p (List.mem_cons_self p l)
    · exact ih fun q hq => hw q (List.mem_cons_of_mem p hq)

/-- With integer weights, the base score is an integer number of tenths. -/
lemma base_score_tenths {w : List (String × ℚ)} (hw : IntegerWeights w)
    (m : Metrics) :
    ∃ k : ℤ, base_score_calc (rawScoresOf m) (extractWeights w) = (k : ℚ) / 10 := by
  obtain ⟨a, ha⟩ := ten_mul_of_tier (q := (rawScoresOf m).industry) (by
    rcases industry_subscore_mem m.industry_growth_3yr with h | h | h | h <;>
      simp [rawScoresOf, h])
  obtain ⟨b, hb⟩ := ten_mul_of_tier (q := (rawScoresOf m).profit) (by
    rcases profit_subscore_mem m.net_profit_growth_5yr with h | h | h | h | h <;>
      simp [rawScoresOf, h])
  obtain ⟨c, hc⟩ := ten_mul_of_tier (q := (rawScoresOf m).mos) (by
    rcases mos_subscore_mem m.pe_ratio m.sector_pe with h | h | h | h <;>
      simp [rawScoresOf, h])
  obtain ⟨d, hd⟩ := ten_mul_of_tier (q := (rawScoresOf m).yield_s) (by
    rcases yield_subscore_mem m.dividend_yield m.dividend_years_consecutive with
      h | h | h | h | h <;> simp [rawScoresOf, h])
  obtain ⟨e, he⟩ := ten_mul_of_tier (q := (rawScoresOf m).competition) (by
    rcases competition_subscore_mem m.company_growth_rate m.industry_growth_3yr with
      h | h | h | h <;> simp [rawScoresOf, h])
  obtain ⟨n1, hn1⟩ := dictGetD_integer hw "industry" 15
  obtain ⟨n2, hn2⟩ := dictGetD_integer hw "profit" 25
  obtain ⟨n3, hn3⟩ := dictGetD_integer hw "mos" 25
  obtain ⟨n4, hn4⟩ := dictGetD_integer hw "yield_val" 20
  obtain ⟨n5, hn5⟩ := dictGetD_integer hw "competition" 15
  refine ⟨a * n1 + b * n2 + c * n3 + d * n4 + e * n5, ?_⟩
  unfold base_score_calc extractWeights
  rw [ha, hb, hc, hd, he]
  rw [show (15 : ℚ) = ((15 : ℤ) : ℚ) by norm_num,
    show (25 : ℚ) = ((25 : ℤ) : ℚ) by norm_num,
    show (20 : ℚ) = ((20 : ℤ) : ℚ) by norm_num]
  rw [hn1, hn2, hn3, hn4, hn5]
  push_cast
  ring

/-- With integer weights, the reported base score is the exact base score:
rounding to one decimal changes nothing. -/
lemma baseScore_exact {w : List (String × ℚ)} (hw : IntegerWeights w)
    (m : List (String × ℚ)) (t : ℚ) :
    (calculate_master_score m w t).baseScore =
      base_score_calc (rawScoresOf (extractMetrics m)) (extractWeights w) := by
  obtain ⟨k, hk⟩ := base_score_tenths hw (extractMetrics m)
  rw [report_baseScore, hk, pyRound1_int_div_ten]

lemma pyRound1_of_tenths {q : ℚ} (k : ℤ) (h : q = (k : ℚ) / 10) :
    pyRound1 q = q := by
  rw [h, pyRound1_int_div_ten]

lemma extractMetrics_beta (m : List (String × ℚ)) :
    (extractMetrics m).beta = dictGetD m "beta" 1.0 := rfl

lemma rawScores_yield_eq (m : List (String × ℚ)) :
    (rawScoresOf (extractMetrics m)).yield_s =
      yield_subscore (dictGetD m "dividend_yield" 0)
        (dictGetD m "dividend_years_consecutive" 0) := rfl

lemma rawScores_mos_eq (m : List (String × ℚ)) :
    (rawScoresOf (extractMetrics m)).mos =
      mos_subscore (dictGetD m "pe_ratio" 0) (dictGetD m "sector_pe" 0) := rfl

/-- The grade thresholds transfer from the rational final score to the
truncated integer field. -/
lemma grade_iff_trunc (p : ℚ) :
    (grade_of p = "A" ↔ 80 ≤ int_trunc p) ∧
    (grade_of p = "B" ↔ 60 ≤ int_trunc p ∧ int_trunc p < 80) ∧
    (grade_of p = "C" ↔ int_trunc p < 60) := by
  have h80 : (80 : ℤ) ≤ int_trunc p ↔ (80 : ℚ) ≤ p := by
    have h := le_int_trunc_iff (show (0:ℤ) < 80 by norm_num) p
    simpa using h
  have h60 : (60 : ℤ) ≤ int_trunc p ↔ (60 : ℚ) ≤ p := by
    have h := le_int_trunc_iff (show (0:ℤ) < 60 by norm_num) p
    simpa using h
  unfold grade_of
  split_ifs with h1 h2
  · refine ⟨by simp [h80.2 h1], ?_, ?_⟩
    · simp only [← not_le, h80]
      simp [h1]
    · simp only [← not_le, h60]
      simp
      linarith
  · refine ⟨?_, ?_, ?_⟩
    · simp only [h80]
      simp [h1]
    · simp only [← not_le, h80]
      simp [h60.2 h2, h1]
    · simp only [← not_le, h60]
      simp [h2]
  · refine ⟨?_, ?_, ?_⟩
    · simp only [h80]
      simp [h1]
    · simp only [← not_le, h80, h60]
      simp
      intro h
      linarith
    · simp only [← not_le, h60]
      simp
      linarith

/-! ### The claims -/

lemma int_trunc_intCast (n : ℤ) : int_trunc ((n : ℤ) : ℚ) = n := by
  unfold int_trunc
  split_ifs
  · exact Int.ceil_intCast n
  · exact Int.floor_intCast n

lemma extractMetrics_nil : extractMetrics ([] : List (String × ℚ)) =
    ⟨0, 0, 0, 0, 0, 0, 0, 1⟩ := by
  norm_num [extractMetrics, dictGetD]

lemma extractWeights_nil : extractWeights ([] : List (String × ℚ)) =
    ⟨15, 25, 25, 20, 15⟩ := by
  norm_num [extractWeights, dictGetD]

lemma extractWeights_negative : extractWeights weightsNegative =
    ⟨-1, 0, 0, 0, 0⟩ := by
  simp [extractWeights, weightsNegative, dictGetD]

/-- All-default metrics score 60 / 40 / 0 / 0 / 50. -/
lemma rawScoresOf_defaults : rawScoresOf ⟨0, 0, 0, 0, 0, 0, 0, 1⟩ =
    ⟨60, 40, 0, 0, 50⟩ := by
  norm_num [rawScoresOf, industry_subscore, profit_subscore, mos_subscore,
    yield_subscore, competition_subscore]

lemma risk_multiplier_moderate_one : risk_multiplier 12 1 = 1 := by
  norm_num [risk_multiplier]

/-- Base score of the default metrics against the negative weights. -/
lemma negcase_base :
    base_score_calc (rawScoresOf (extractMetrics [])) (extractWeights weightsNegative) =
      -(3/5) := by
  rw [extractMetrics_nil, rawScoresOf_defaults, extractWeights_negative]
  norm_num [base_score_calc]

lemma negcase_baseScore :
    (calculate_master_score [] weightsNegative 12).baseScore = -(3/5) := by
  rw [report_baseScore, negcase_base]
  exact pyRound1_of_tenths (-6) (by norm_num)

lemma negcase_riskMult :
    (calculate_master_score [] weightsNegative 12).riskMult = 1 := by
  rw [report_riskMult, extractMetrics_nil]
  exact risk_multiplier_moderate_one

lemma negcase_finalScore :
    (calculate_master_score [] weightsNegative 12).finalScore = 0 := by
  rw [report_finalScore, negcase_base, extractMetrics_nil]
  rw [show (Metrics.mk 0 0 0 0 0 0 0 1).beta = 1 from rfl,
    risk_multiplier_moderate_one,
    show (-(3/5) : ℚ) * 1 = -(3/5) by norm_num]
  unfold int_trunc
  rw [if_pos (by norm_num), Int.ceil_eq_iff]
  constructor <;> norm_num

/-- Scenario 1 metrics extract to the eight stated values. -/
lemma scenario1_metrics : extractMetrics metricsS1 = ⟨25, 22, 10, 15, 9, 6, 30, 1⟩ := by
  simp [extractMetrics, metricsS1, dictGetD]
  norm_num

lemma scenario1_weights : extractWeights weightsS1 = ⟨15, 25, 25, 20, 15⟩ := by
  simp [extractWeights, weightsS1, dictGetD]

/-- Scenario 1 raw sub-scores: the MOS axis hits the `> 20 % cheaper` tier
(mos_pct = 1/3), so it is 100, not 80. -/
lemma scenario1_rawScores : rawScoresOf ⟨25, 22, 10, 15, 9, 6, 30, 1⟩ =
    ⟨100, 100, 100, 100, 80⟩ := by
  norm_num [rawScoresOf, industry_subscore, profit_subscore, mos_subscore,
    yield_subscore, competition_subscore]

lemma scenario1_base :
    base_score_calc (rawScoresOf (extractMetrics metricsS1)) (extractWeights weightsS1) =
      97 := by
  rw [scenario1_metrics, scenario1_rawScores, scenario1_weights]
  norm_num [base_score_calc]

/-- C2 is false as stated: at target_return 5 (Conservative band) and beta
exactly 1.2 — which satisfies beta ≥ 1.2 — the risk multiplier is 0.9, not
0.5, because the code's second branch keeps beta ≤ 1.2. -/
theorem conservative_beta_boundary_counterexample :
    (5 : ℚ) < 10 ∧ (1.2 : ℚ) ≤ dictGetD [("beta", 1.2)] "beta" 1.0 ∧
      (calculate_master_score [("beta", 1.2)] [] 5).riskMult ≠ 0.5 := by
  refine ⟨by norm_num, by norm_num [dictGetD], ?_⟩
  rw [report_riskMult, extractMetrics_beta]
  norm_num [dictGetD, risk_multiplier]

/-- C2 (amended): for every metrics mapping and every target_return < 10, if
beta strictly exceeds 1.2 then the risk multiplier returned by score is
exactly 0.5 (at beta = 1.2 the Conservative band returns 0.9 instead). -/
theorem conservative_high_beta_riskMult (metrics weights : List (String × ℚ))
    (t : ℚ) (ht : t < 10) (hb : 1.2 < dictGetD metrics "beta" 1.0) :
    (calculate_master_score metrics weights t).riskMult = 0.5 := by
  rw [report_riskMult, extractMetrics_beta]
  unfold risk_multiplier
  rw [if_pos ht, if_neg (not_lt.2 (by linarith)), if_neg (not_le.2 hb)]

/-- Witness for C2 (amended) at target_return 5 and beta 1.3. -/
theorem conservative_high_beta_riskMult_witness :
    (calculate_master_score [("beta", 1.3)] [] 5).riskMult = 0.5 :=
  conservative_high_beta_riskMult [("beta", 1.3)] [] 5 (by norm_num)
    (by norm_num [dictGetD])

/-- C5: dividend_years_consecutive < 5 forces the yield sub-score to 0
regardless of dividend_yield; with at least 5 consecutive years the yield
sub-score is never 0, and follows the 8 / 5 / 3 tiers with floor 30. -/
theorem yield_subscore_policy (metrics weights : List (String × ℚ)) (t : ℚ) :
    (dictGetD metrics "dividend_years_consecutive" 0 < 5 →
      (calculate_master_score metrics weights t).rawScores.yield_s = 0) ∧
    (5 ≤ dictGetD metrics "dividend_years_consecutive" 0 →
      ((calculate_master_score metrics weights t).rawScores.yield_s ≠ 0 ∧
        (8 ≤ dictGetD metrics "dividend_yield" 0 →
          (calculate_master_score metrics weights t).rawScores.yield_s = 100) ∧
        (5 ≤ dictGetD metrics "dividend_yield" 0 →
          dictGetD metrics "dividend_yield" 0 < 8 →
          (calculate_master_score metrics weights t).rawScores.yield_s = 80) ∧
        (3 ≤ dictGetD metrics "dividend_yield" 0 →
          dictGetD metrics "dividend_yield" 0 < 5 →
          (calculate_master_score metrics weights t).rawScores.yield_s = 60) ∧
        (dictGetD metrics "dividend_yield" 0 < 3 →
          (calculate_master_score metrics weights t).rawScores.yield_s = 30))) := by
  rw [report_rawScores, rawScores_yield_eq]
  set y := dictGetD metrics "dividend_yield" 0 with hy
  set n := dictGetD metrics "dividend_years_consecutive" 0 with hn
  unfold yield_subscore
  constructor
  · intro h
    rw [if_pos h]
  · intro h
    rw [if_neg (not_lt.2 h)]
    refine ⟨by split_ifs <;> norm_num, ?_, ?_, ?_, ?_⟩
    · intro h8
      rw [if_pos (show y ≥ 8 from h8)]
    · intro h5 h8
      rw [if_neg (not_le.2 h8), if_pos (show y ≥ 5 from h5)]
    · intro h3 h5
      rw [if_neg (not_le.2 (show y < 8 by linarith)), if_neg (not_le.2 h5),
        if_pos (show y ≥ 3 from h3)]
    · intro h3
      rw [if_neg (not_le.2 (show y < 8 by linarith)),
        if_neg (not_le.2 (show y < 5 by linarith)), if_neg (not_le.2 h3)]

/-- Witness for C5: Scenario 2 — 2 consecutive years and a 15 % yield still
give a yield sub-score of 0. -/
theorem yield_subscore_policy_witness :
    (calculate_master_score
      [("dividend_years_consecutive", 2), ("dividend_yield", 15)] [] 12
      ).rawScores.yield_s = 0 :=
  (yield_subscore_policy
    [("dividend_years_consecutive", 2), ("dividend_yield", 15)] [] 12).1
    (by norm_num [dictGetD])

/-- C6: with sector_pe ≤ 0 the MOS sub-score is 50 exactly when
0 < pe_ratio < 20, else 0; with sector_pe > 0 it is tiered on
mos_pct = (sector_pe − pe_ratio) / sector_pe. -/
theorem mos_subscore_policy (metrics weights : List (String × ℚ)) (t : ℚ) :
    (dictGetD metrics "sector_pe" 0 ≤ 0 →
      ((0 < dictGetD metrics "pe_ratio" 0 ∧ dictGetD metrics "pe_ratio" 0 < 20 →
        (calculate_master_score metrics weights t).rawScores.mos = 50) ∧
       (¬(0 < dictGetD metrics "pe_ratio" 0 ∧ dictGetD metrics "pe_ratio" 0 < 20) →
        (calculate_master_score metrics weights t).rawScores.mos = 0))) ∧
    (0 < dictGetD metrics "sector_pe" 0 →
      ((0.20 < (dictGetD metrics "sector_pe" 0 - dictGetD metrics "pe_ratio" 0) /
          dictGetD metrics "sector_pe" 0 →
        (calculate_master_score metrics weights t).rawScores.mos = 100) ∧
       (0.10 ≤ (dictGetD metrics "sector_pe" 0 - dictGetD metrics "pe_ratio" 0) /
          dictGetD metrics "sector_pe" 0 →
        (dictGetD metrics "sector_pe" 0 - dictGetD metrics "pe_ratio" 0) /
          dictGetD metrics "sector_pe" 0 ≤ 0.20 →
        (calculate_master_score metrics weights t).rawScores.mos = 80) ∧
       (-0.10 ≤ (dictGetD metrics "sector_pe" 0 - dictGetD metrics "pe_ratio" 0) /
          dictGetD metrics "sector_pe" 0 →
        (dictGetD metrics "sector_pe" 0 - dictGetD metrics "pe_ratio" 0) /
          dictGetD metrics "sector_pe" 0 < 0.10 →
        (calculate_master_score metrics weights t).rawScores.mos = 50) ∧
       ((dictGetD metrics "sector_pe" 0 - dictGetD metrics "pe_ratio" 0) /
          dictGetD metrics "sector_pe" 0 < -0.10 →
        (calculate_master_score metrics weights t).rawScores.mos = 0))) := by
  rw [report_rawScores, rawScores_mos_eq]
  set p := dictGetD metrics "pe_ratio" 0 with hp
  set s := dictGetD metrics "sector_pe" 0 with hs
  unfold mos_subscore
  constructor
  · intro h
    rw [if_neg (not_lt.2 h)]
    constructor
    · intro hin
      rw [if_pos hin]
    · intro hout
      rw [if_neg hout]
  · intro h
    rw [if_pos h]
    dsimp only
    refine ⟨?_, ?_, ?_, ?_⟩
    · intro h1
      rw [if_pos (show (s - p) / s > 0.20 from h1)]
    · intro h1 h2
      rw [if_neg (not_lt.2 h2), if_pos (show (s - p) / s ≥ 0.10 from h1)]
    · intro h1 h2
      rw [if_neg (not_lt.2 (show (s - p) / s ≤ 0.20 by linarith)),
        if_neg (not_le.2 h2), if_pos (show (s - p) / s ≥ -0.10 from h1)]
    · intro h1
      rw [if_neg (not_lt.2 (show (s - p) / s ≤ 0.20 by linarith)),
        if_neg (not_le.2 (show (s - p) / s < 0.10 by linarith)),
        if_neg (not_le.2 h1)]

/-- Witness for C6: Scenario 3 — sector_pe 0 and pe_ratio 12 give a MOS
sub-score of 50 through the fallback branch. -/
theorem mos_subscore_policy_witness :
    (calculate_master_score [("sector_pe", 0), ("pe_ratio", 12)] [] 12
      ).rawScores.mos = 50 :=
  ((mos_subscore_policy [("sector_pe", 0), ("pe_ratio", 12)] [] 12).1
    (by norm_num [dictGetD])).1 (by simp [dictGetD]; norm_num)

/-- C8: for target_return ≥ 15 the risk multiplier is 1.0 on beta in
[1.2, 2.5], 0.9 on beta in [0.9, 1.2), and 0.6 otherwise; for
10 ≤ target_return < 15 it is 1.0 on beta in [0.7, 1.5] and 0.8 otherwise. -/
theorem aggressive_moderate_riskMult (metrics weights : List (String × ℚ))
    (t : ℚ) :
    (15 ≤ t →
      ((1.2 ≤ dictGetD metrics "beta" 1.0 ∧ dictGetD metrics "beta" 1.0 ≤ 2.5 →
        (calculate_master_score metrics weights t).riskMult = 1.0) ∧
       (0.9 ≤ dictGetD metrics "beta" 1.0 ∧ dictGetD metrics "beta" 1.0 < 1.2 →
        (calculate_master_score metrics weights t).riskMult = 0.9) ∧
       (¬(1.2 ≤ dictGetD metrics "beta" 1.0 ∧ dictGetD metrics "beta" 1.0 ≤ 2.5) →
        ¬(0.9 ≤ dictGetD metrics "beta" 1.0 ∧ dictGetD metrics "beta" 1.0 < 1.2) →
        (calculate_master_score metrics weights t).riskMult = 0.6))) ∧
    (10 ≤ t → t < 15 →
      ((0.7 ≤ dictGetD metrics "beta" 1.0 ∧ dictGetD metrics "beta" 1.0 ≤ 1.5 →
        (calculate_master_score metrics weights t).riskMult = 1.0) ∧
       (¬(0.7 ≤ dictGetD metrics "beta" 1.0 ∧ dictGetD metrics "beta" 1.0 ≤ 1.5) →
        (calculate_master_score metrics weights t).riskMult = 0.8))) := by
  rw [report_riskMult, extractMetrics_beta]
  set b := dictGetD metrics "beta" 1.0 with hb
  unfold risk_multiplier
  constructor
  · intro h15
    rw [if_neg (not_lt.2 (by linarith)), if_pos (show t ≥ 15 from h15)]
    refine ⟨?_, ?_, ?_⟩
    · intro h1
      rw [if_pos h1]
    · intro h1
      rw [if_neg (fun hc => absurd hc.1 (not_le.2 h1.2)), if_pos h1]
    · intro h1 h2
      rw [if_neg h1, if_neg h2]
  · intro h10 h15
    rw [if_neg (not_lt.2 (by linarith)), if_neg (not_le.2 h15)]
    constructor
    · intro h1
      rw [if_pos h1]
    · intro h1
      rw [if_neg h1]

/-- Witness for C8: Scenario 5 — target_return 20 and beta 0.5 land in the
Aggressive band with beta outside both intervals, so the multiplier is 0.6. -/
theorem aggressive_moderate_riskMult_witness :
    (calculate_master_score [("beta", 0.5)] [] 20).riskMult = 0.6 :=
  ((aggressive_moderate_riskMult [("beta", 0.5)] [] 20).1 (by norm_num)).2.2
    (by norm_num [dictGetD]) (by norm_num [dictGetD])

/-- C7: the engine is total on every numeric input — the run in which the
division raises on a zero divisor (as Python's `/` does) always succeeds and
returns exactly the report of `calculate_master_score`, because the division
by `sector_pe` is guarded by `sector_pe > 0`. -/
theorem score_total_no_error (metrics weights : List (String × ℚ)) (t : ℚ) :
    calculate_master_score_checked metrics weights t =
      some (calculate_master_score metrics weights t) := by
  have h : mos_subscore_checked (extractMetrics metrics).pe_ratio
      (extractMetrics metrics).sector_pe =
      some (mos_subscore (extractMetrics metrics).pe_ratio
        (extractMetrics metrics).sector_pe) := by
    unfold mos_subscore_checked mos_subscore safeDiv
    by_cases h1 : (extractMetrics metrics).sector_pe > 0
    · rw [if_pos h1, if_pos h1, if_neg (ne_of_gt h1)]
    · rw [if_neg h1, if_neg h1]
  unfold calculate_master_score_checked calculate_master_score
  dsimp only
  rw [h]
  rfl

/-- C9: every raw sub-score lies in its axis's discrete tier set, the risk
multiplier lies in {0.5, 0.6, 0.8, 0.9, 1.0}, and the grade partitions the
integer finalScore: "A" iff ≥ 80, "B" iff in [60, 80), "C" iff < 60. -/
theorem report_invariants (metrics weights : List (String × ℚ)) (t : ℚ) :
    ((calculate_master_score metrics weights t).rawScores.industry = 0 ∨
      (calculate_master_score metrics weights t).rawScores.industry = 60 ∨
      (calculate_master_score metrics weights t).rawScores.industry = 80 ∨
      (calculate_master_score metrics weights t).rawScores.industry = 100) ∧
    ((calculate_master_score metrics weights t).rawScores.profit = 0 ∨
      (calculate_master_score metrics weights t).rawScores.profit = 40 ∨
      (calculate_master_score metrics weights t).rawScores.profit = 60 ∨
      (calculate_master_score metrics weights t).rawScores.profit = 80 ∨
      (calculate_master_score metrics weights t).rawScores.profit = 100) ∧
    ((calculate_master_score metrics weights t).rawScores.mos = 0 ∨
      (calculate_master_score metrics weights t).rawScores.mos = 50 ∨
      (calculate_master_score metrics weights t).rawScores.mos = 80 ∨
      (calculate_master_score metrics weights t).rawScores.mos = 100) ∧
    ((calculate_master_score metrics weights t).rawScores.yield_s = 0 ∨
      (calculate_master_score metrics weights t).rawScores.yield_s = 30 ∨
      (calculate_master_score metrics weights t).rawScores.yield_s = 60 ∨
      (calculate_master_score metrics weights t).rawScores.yield_s = 80 ∨
      (calculate_master_score metrics weights t).rawScores.yield_s = 100) ∧
    ((calculate_master_score metrics weights t).rawScores.competition = 20 ∨
      (calculate_master_score metrics weights t).rawScores.competition = 50 ∨
      (calculate_master_score metrics weights t).rawScores.competition = 80 ∨
      (calculate_master_score metrics weights t).rawScores.competition = 100) ∧
    ((calculate_master_score metrics weights t).riskMult = 0.5 ∨
      (calculate_master_score metrics weights t).riskMult = 0.6 ∨
      (calculate_master_score metrics weights t).riskMult = 0.8 ∨
      (calculate_master_score metrics weights t).riskMult = 0.9 ∨
      (calculate_master_score metrics weights t).riskMult = 1.0) ∧
    ((calculate_master_score metrics weights t).grade = "A" ↔
      80 ≤ (calculate_master_score metrics weights t).finalScore) ∧
    ((calculate_master_score metrics weights t).grade = "B" ↔
      60 ≤ (calculate_master_score metrics weights t).finalScore ∧
        (calculate_master_score metrics weights t).finalScore < 80) ∧
    ((calculate_master_score metrics weights t).grade = "C" ↔
      (calculate_master_score metrics weights t).finalScore < 60) := by
  rw [report_rawScores, report_riskMult, report_grade, report_finalScore]
  obtain ⟨gA, gB, gC⟩ := grade_iff_trunc
    (base_score_calc (rawScoresOf (extractMetrics metrics)) (extractWeights weights) *
      risk_multiplier t (extractMetrics metrics).beta)
  exact ⟨industry_subscore_mem _, profit_subscore_mem _, mos_subscore_mem _ _,
    yield_subscore_mem _ _, competition_subscore_mem _ _,
    risk_multiplier_mem _ _, gA, gB, gC⟩

/-- C10: the report depends only on the eight recognized metric keys and the
five recognized weight keys — two calls whose inputs agree on those keys (and
on target_return) return identical reports, whatever other keys are present. -/
theorem score_depends_only_on_recognized_keys
    (m₁ m₂ w₁ w₂ : List (String × ℚ)) (t : ℚ)
    (h1 : dictGetD m₁ "industry_growth_3yr" 0 = dictGetD m₂ "industry_growth_3yr" 0)
    (h2 : dictGetD m₁ "net_profit_growth_5yr" 0 = dictGetD m₂ "net_profit_growth_5yr" 0)
    (h3 : dictGetD m₁ "pe_ratio" 0 = dictGetD m₂ "pe_ratio" 0)
    (h4 : dictGetD m₁ "sector_pe" 0 = dictGetD m₂ "sector_pe" 0)
    (h5 : dictGetD m₁ "dividend_yield" 0 = dictGetD m₂ "dividend_yield" 0)
    (h6 : dictGetD m₁ "dividend_years_consecutive" 0 =
      dictGetD m₂ "dividend_years_consecutive" 0)
    (h7 : dictGetD m₁ "company_growth_rate" 0 = dictGetD m₂ "company_growth_rate" 0)
    (h8 : dictGetD m₁ "beta" 1.0 = dictGetD m₂ "beta" 1.0)
    (g1 : dictGetD w₁ "industry" 15 = dictGetD w₂ "industry" 15)
    (g2 : dictGetD w₁ "profit" 25 = dictGetD w₂ "profit" 25)
    (g3 : dictGetD w₁ "mos" 25 = dictGetD w₂ "mos" 25)
    (g4 : dictGetD w₁ "yield_val" 20 = dictGetD w₂ "yield_val" 20)
    (g5 : dictGetD w₁ "competition" 15 = dictGetD w₂ "competition" 15) :
    calculate_master_score m₁ w₁ t = calculate_master_score m₂ w₂ t := by
  have hm : extractMetrics m₁ = extractMetrics m₂ := by
    unfold extractMetrics
    rw [h1, h2, h3, h4, h5, h6, h7, h8]
  have hw : extractWeights w₁ = extractWeights w₂ := by
    unfold extractWeights
    rw [g1, g2, g3, g4, g5]
  unfold calculate_master_score
  rw [hm, hw]

/-- Witness for C10: a junk metric key and a weights entry under the
unrecognized key `yield` (instead of `yield_val`) do not change the report. -/
theorem score_depends_only_on_recognized_keys_witness :
    calculate_master_score [("pe_ratio", 12)] [("yield", 99)] 12 =
      calculate_master_score [("pe_ratio", 12), ("unrelated_key", 7)] [] 12 :=
  score_depends_only_on_recognized_keys _ _ _ _ 12
    (by simp [dictGetD]) (by simp [dictGetD]) (by simp [dictGetD])
    (by simp [dictGetD]) (by simp [dictGetD]) (by simp [dictGetD])
    (by simp [dictGetD]) (by simp [dictGetD]) (by simp [dictGetD])
    (by simp [dictGetD]) (by simp [dictGetD]) (by simp [dictGetD])
    (by simp [dictGetD])

/-- C1 is false as stated: on the Scenario 1 inputs the MOS sub-score is 100
(mos_pct = 1/3 > 0.20), not 80, so the claimed report (mos 80, baseScore 94.0,
finalScore 94) does not match the computed one. -/
theorem scenario1_claimed_report_counterexample :
    ¬((calculate_master_score metricsS1 weightsS1 12).rawScores =
        ⟨100, 100, 80, 100, 80⟩ ∧
      (calculate_master_score metricsS1 weightsS1 12).baseScore = 94 ∧
      (calculate_master_score metricsS1 weightsS1 12).riskMult = 1 ∧
      (calculate_master_score metricsS1 weightsS1 12).finalScore = 94 ∧
      (calculate_master_score metricsS1 weightsS1 12).grade = "A") := by
  intro hcl
  have hmos : (calculate_master_score metricsS1 weightsS1 12).rawScores.mos = 100 := by
    rw [report_rawScores, scenario1_metrics, scenario1_rawScores]
  rw [hcl.1] at hmos
  simp at hmos

/-- C1 (amended): on the Scenario 1 inputs the report is
rawScores = {industry 100, profit 100, mos 100, yield 100, competition 80},
baseScore = 97.0, riskMult = 1.0, finalScore = 97, grade = "A". -/
theorem scenario1_report :
    (calculate_master_score metricsS1 weightsS1 12).rawScores =
        ⟨100, 100, 100, 100, 80⟩ ∧
      (calculate_master_score metricsS1 weightsS1 12).baseScore = 97 ∧
      (calculate_master_score metricsS1 weightsS1 12).riskMult = 1 ∧
      (calculate_master_score metricsS1 weightsS1 12).finalScore = 97 ∧
      (calculate_master_score metricsS1 weightsS1 12).grade = "A" := by
  have hrm : risk_multiplier 12 (extractMetrics metricsS1).beta = 1 := by
    rw [scenario1_metrics]
    exact risk_multiplier_moderate_one
  refine ⟨?_, ?_, ?_, ?_, ?_⟩
  · rw [report_rawScores, scenario1_metrics, scenario1_rawScores]
  · rw [report_baseScore, scenario1_base]
    exact pyRound1_of_tenths 970 (by norm_num)
  · rw [report_riskMult, hrm]
  · rw [report_finalScore, scenario1_base, hrm]
    rw [show (97 : ℚ) * 1 = ((97 : ℤ) : ℚ) by norm_num]
    exact int_trunc_intCast 97
  · rw [report_grade, scenario1_base, hrm]
    norm_num [grade_of]

/-- C3 is false as stated: with the negative weights input the base score is
-0.6, the code truncates toward zero (finalScore 0) while the claimed floor
would give -1. -/
theorem finalScore_floor_counterexample :
    (calculate_master_score [] weightsNegative 12).finalScore ≠
      ⌊(calculate_master_score [] weightsNegative 12).baseScore *
        (calculate_master_score [] weightsNegative 12).riskMult⌋ := by
  rw [negcase_finalScore, negcase_baseScore, negcase_riskMult]
  rw [show (-(3/5) : ℚ) * 1 = -(3/5) by norm_num]
  rw [show ⌊(-(3/5) : ℚ)⌋ = -1 by rw [Int.floor_eq_iff]; constructor <;> norm_num]
  norm_num

/-- C3 (amended): with integer weights (as §3 defines a WeightSet), finalScore
is baseScore × riskMult truncated toward zero — which coincides with the
claimed floor whenever the product is nonnegative. -/
theorem finalScore_truncation (metrics weights : List (String × ℚ)) (t : ℚ)
    (hw : IntegerWeights weights) :
    (calculate_master_score metrics weights t).finalScore =
      int_trunc ((calculate_master_score metrics weights t).baseScore *
        (calculate_master_score metrics weights t).riskMult) ∧
    (0 ≤ (calculate_master_score metrics weights t).baseScore *
        (calculate_master_score metrics weights t).riskMult →
      (calculate_master_score metrics weights t).finalScore =
        ⌊(calculate_master_score metrics weights t).baseScore *
          (calculate_master_score metrics weights t).riskMult⌋) := by
  have h1 : (calculate_master_score metrics weights t).finalScore =
      int_trunc ((calculate_master_score metrics weights t).baseScore *
        (calculate_master_score metrics weights t).riskMult) := by
    rw [baseScore_exact hw, report_finalScore, report_riskMult]
  exact ⟨h1, fun h0 => by rw [h1, int_trunc_of_nonneg h0]⟩

/-- Witness for C3 (amended) on empty metrics and weights mappings. -/
theorem finalScore_truncation_witness :
    (calculate_master_score [] [] 12).finalScore =
      int_trunc ((calculate_master_score [] [] 12).baseScore *
        (calculate_master_score [] [] 12).riskMult) :=
  (finalScore_truncation [] [] 12 (fun p hp => absurd hp (List.not_mem_nil p))).1

/-- C4 is false as stated: with the negative weights input, baseScore is -0.6
but finalScore is 0 (truncation toward zero), so finalScore > baseScore. -/
theorem finalScore_le_baseScore_counterexample :
    ¬(((calculate_master_score [] weightsNegative 12).finalScore : ℚ) ≤
      (calculate_master_score [] weightsNegative 12).baseScore) := by
  rw [negcase_finalScore, negcase_baseScore]
  norm_num

/-- C4 (amended): the risk multiplier is at most 1.0 for every input, and
finalScore ≤ baseScore holds whenever the weights are integers and the
(reported) base-times-multiplier product cannot go negative — i.e. whenever
baseScore ≥ 0; a negative base score breaks the bound via truncation. -/
theorem riskMult_le_one_finalScore_bound (metrics weights : List (String × ℚ))
    (t : ℚ) :
    (calculate_master_score metrics weights t).riskMult ≤ 1 ∧
    (IntegerWeights weights →
      0 ≤ (calculate_master_score metrics weights t).baseScore →
      ((calculate_master_score metrics weights t).finalScore : ℚ) ≤
        (calculate_master_score metrics weights t).baseScore) := by
  constructor
  · rw [report_riskMult]
    exact risk_multiplier_le_one _ _
  · intro hw h0
    rw [baseScore_exact hw] at h0 ⊢
    rw [report_finalScore]
    have hrm0 : 0 < risk_multiplier t (extractMetrics metrics).beta :=
      risk_multiplier_pos _ _
    have hrm1 : risk_multiplier t (extractMetrics metrics).beta ≤ 1 :=
      risk_multiplier_le_one _ _
    have hp0 : 0 ≤ base_score_calc (rawScoresOf (extractMetrics metrics))
        (extractWeights weights) * risk_multiplier t (extractMetrics metrics).beta :=
      mul_nonneg h0 hrm0.le
    rw [int_trunc_of_nonneg hp0]
    calc ((⌊base_score_calc (rawScoresOf (extractMetrics metrics))
            (extractWeights weights) *
            risk_multiplier t (extractMetrics metrics).beta⌋ : ℤ) : ℚ) ≤
          base_score_calc (rawScoresOf (extractMetrics metrics))
            (extractWeights weights) *
            risk_multiplier t (extractMetrics metrics).beta := Int.floor_le _
      _ ≤ base_score_calc (rawScoresOf (extractMetrics metrics))
            (extractWeights weights) * 1 :=
          mul_le_mul_of_nonneg_left hrm1 h0
      _ = base_score_calc (rawScoresOf (extractMetrics metrics))
            (extractWeights weights) := mul_one _

/-- Witness for C4 (amended) on empty metrics and weights (baseScore 26.5). -/
theorem riskMult_le_one_finalScore_bound_witness :
    (calculate_master_score [] [] 12).riskMult ≤ 1 ∧
    ((calculate_master_score [] [] 12).finalScore : ℚ) ≤
      (calculate_master_score [] [] 12).baseScore :=
  ⟨(riskMult_le_one_finalScore_bound [] [] 12).1,
    (riskMult_le_one_finalScore_bound [] [] 12).2
      (fun p hp => absurd hp (List.not_mem_nil p))
      (by
        have hb : base_score_calc (rawScoresOf (extractMetrics []))
            (extractWeights []) = 53/2 := by
          rw [extractMetrics_nil, rawScoresOf_defaults, extractWeights_nil]
          norm_num [base_score_calc]
        rw [report_baseScore, hb, pyRound1_of_tenths 265 (by norm_num)]
        norm_num)⟩

end SimpleStockRank
